import Mathlib

/-!
Shallow embedding of the scanner backend (FastAPI + WebSocket).

Modelled modules:
* `app/services/websocket_manager.py` — `EnhancedConnectionManager`:
  connection registry, scanner-session presence map, heartbeat handling,
  broadcast with deferred cleanup of failed connections.
* `app/database.py` — `DatabaseManager`: the `scans` table, `add_scan`,
  `get_scan_pairs` with its string-comparison date filters.
* `app/routers/api.py` — `get_dict` grouping and the `post_data` handler.

Conventions: a WebSocket connection is a `Nat` identifier; `datetime`
instants are `Nat` microseconds since an arbitrary epoch; SQLite `TEXT`
timestamps stay `String` and are compared lexicographically, exactly as
SQLite's binary collation compares the ASCII timestamps the code stores.
Python `dict`s keyed by connection become association lists with the
dict's insert/update/remove semantics spelled out.
-/

namespace ScannerBackend

/-- Python `timedelta.seconds` of a non-negative timedelta given in
microseconds: the seconds *component* after normalisation to
`(days, seconds, microseconds)`, i.e. whole seconds modulo 86400.
(This is NOT `total_seconds()`.) -/
def timedeltaSeconds (elapsedMicro : Nat) : Nat :=
  (elapsedMicro / 1000000) % 86400

/-- One entry of `EnhancedConnectionManager.scanner_connections`
(`websocket_manager.py` lines 72-77): the dict
`{'client': ..., 'last_heartbeat': ..., 'connected_at': ...}`. -/
structure ScannerSession where
  client : String
  last_heartbeat : Nat
  connected_at : Nat
deriving DecidableEq

/-- The mutable state of `EnhancedConnectionManager`:
`active_connections : List[WebSocket]` and the
`scanner_connections : dict` keyed by websocket. -/
structure ManagerState where
  active_connections : List Nat
  scanner_connections : List (Nat × ScannerSession)
deriving DecidableEq

/-- `WSScannerInfo` from `models.py`: one element of the list produced by
`get_connected_scanners_info`. -/
structure WSScannerInfo where
  client : String
  connected_at : Nat
  last_heartbeat : Nat
  is_active : Bool
deriving DecidableEq

/-- `WSScannerStatus` from `models.py` (tag `scanner_status`). -/
structure WSScannerStatus where
  scanners : List WSScannerInfo
  has_active_scanners : Bool
  timestamp : Nat
deriving DecidableEq

/-- `WSHeartbeatAck` from `models.py` (tag `heartbeat_ack`). -/
structure WSHeartbeatAck where
  timestamp : Nat
deriving DecidableEq

/-- A parsed incoming WebSocket JSON message, as `handle_message` reads it:
`data.get('type', 'unknown')`, optional `client`, optional `timestamp`. -/
structure WSHeartbeatIn where
  type : String
  timestamp : Option String
  client : Option String
deriving DecidableEq

/-- Observable output actions of the manager: a direct
`websocket.send_text` to one connection, or an
`asyncio.create_task(self.broadcast_scanner_status())` scheduling a
status broadcast to everyone. -/
inductive WSEvent where
  | sendText (conn : Nat) (ack : WSHeartbeatAck)
  | scheduleStatusBroadcast (payload : WSScannerStatus)
deriving DecidableEq

/-- `EnhancedConnectionManager.disconnect` (lines 32-44): remove the
websocket from `active_connections` if present (`list.remove` drops the
first occurrence), and pop its entry from `scanner_connections` if
present. The status broadcast it schedules carries no registry effect. -/
def disconnect (ws : Nat) (st : ManagerState) : ManagerState :=
  { active_connections := st.active_connections.erase ws
    scanner_connections := st.scanner_connections.filter (fun p => !(p.1 == ws)) }

/-- Result of one `broadcast` call: the connections the loop attempted a
send to, those whose send did not raise, and the manager state after the
deferred `disconnect` pass. -/
structure BroadcastResult where
  attempted : List Nat
  delivered : List Nat
  state : ManagerState
deriving DecidableEq

/-- `EnhancedConnectionManager.broadcast` (lines 57-70). Which sends raise
is abstracted by `fails`. The loop iterates the live
`active_connections` list, catches each send failure, collects the
failed connections in `disconnected`, and only after the full pass calls
`self.disconnect` on each collected connection. -/
def broadcast (fails : Nat → Bool) (st : ManagerState) : BroadcastResult :=
  if st.active_connections.isEmpty then
    { attempted := [], delivered := [], state := st }
  else
    let disconnected := st.active_connections.filter fails
    { attempted := st.active_connections
      delivered := st.active_connections.filter (fun c => !fails c)
      state := disconnected.foldl (fun s c => disconnect c s) st }

/-- Python `dict.__setitem__` on the association-list model: overwrite in
place when the key exists, append otherwise. -/
def dictSet (d : List (Nat × ScannerSession)) (k : Nat) (v : ScannerSession) :
    List (Nat × ScannerSession) :=
  if d.any (fun p => p.1 == k) then
    d.map (fun p => if p.1 == k then (k, v) else p)
  else
    d ++ [(k, v)]

/-- `EnhancedConnectionManager.register_scanner` (lines 72-79):
`scanner_connections[websocket] = {'client': info.get('client','unknown'),
'last_heartbeat': now, 'connected_at': now}`. -/
def register_scanner (now : Nat) (ws : Nat) (data : WSHeartbeatIn)
    (st : ManagerState) : ManagerState :=
  let info : ScannerSession :=
    { client := data.client.getD "unknown"
      last_heartbeat := now
      connected_at := now }
  { st with scanner_connections := dictSet st.scanner_connections ws info }

/-- The in-place rewrite `scanner_connections[websocket]['last_heartbeat']
= datetime.now()` on one association-list entry: the matching key gets a
fresh `last_heartbeat`, every other entry is untouched. -/
def updateHB (ws now : Nat) (p : Nat × ScannerSession) : Nat × ScannerSession :=
  if p.1 == ws then (p.1, { p.2 with last_heartbeat := now }) else p

/-- `EnhancedConnectionManager.update_scanner_heartbeat` (lines 92-94):
if the websocket is tracked, set its `last_heartbeat` to `datetime.now()`. -/
def update_scanner_heartbeat (now : Nat) (ws : Nat) (st : ManagerState) :
    ManagerState :=
  if st.scanner_connections.any (fun p => p.1 == ws) then
    { st with scanner_connections := st.scanner_connections.map (updateHB ws now) }
  else st

/-- `EnhancedConnectionManager.get_connected_scanners_info` (lines 96-105):
one `WSScannerInfo` per tracked session, with
`is_active = (datetime.now() - last_heartbeat).seconds < 60`. -/
def get_connected_scanners_info (now : Nat) (st : ManagerState) :
    List WSScannerInfo :=
  st.scanner_connections.map (fun p =>
    { client := p.2.client
      connected_at := p.2.connected_at
      last_heartbeat := p.2.last_heartbeat
      is_active := timedeltaSeconds (now - p.2.last_heartbeat) < 60 })

/-- The payload built by `EnhancedConnectionManager.broadcast_scanner_status`
(lines 81-90): `has_active_scanners = len([s for s in info if s['is_active']]) > 0`. -/
def broadcast_scanner_status (now : Nat) (st : ManagerState) : WSScannerStatus :=
  let scanners_info := get_connected_scanners_info now st
  { scanners := scanners_info
    has_active_scanners := decide (0 < (scanners_info.filter (fun s => s.is_active)).length)
    timestamp := now }

/-- Dict lookup on `scanner_connections`. -/
def lookupSession (st : ManagerState) (ws : Nat) : Option ScannerSession :=
  (st.scanner_connections.find? (fun p => p.1 == ws)).map Prod.snd

/-- `EnhancedConnectionManager.handle_message` (lines 107-127). `parsed` is
`none` on a `json.JSONDecodeError` (caught: no effect). For a
`heartbeat`, register when untracked (which schedules a status
broadcast) or update the heartbeat when tracked, then send a
`heartbeat_ack` back on the same websocket. Any other type only logs. -/
def handle_message (now : Nat) (ws : Nat) (parsed : Option WSHeartbeatIn)
    (st : ManagerState) : ManagerState × List WSEvent :=
  match parsed with
  | none => (st, [])
  | some data =>
    if data.type = "heartbeat" then
      if st.scanner_connections.any (fun p => p.1 == ws) then
        let st2 := update_scanner_heartbeat now ws st
        (st2, [.sendText ws { timestamp := now }])
      else
        let st2 := register_scanner now ws data st
        (st2, [.scheduleStatusBroadcast (broadcast_scanner_status now st2),
               .sendText ws { timestamp := now }])
    else (st, [])

/-! ## Database layer (`app/database.py`) and REST handlers (`app/routers/api.py`) -/

/-- Byte-wise strict order on character lists: SQLite compares `TEXT`
values with `memcmp` (BINARY collation), which on the ASCII timestamp
strings the code stores is exactly this codepoint-lexicographic order. -/
def charsLt : List Char → List Char → Bool
  | [], [] => false
  | [], _ :: _ => true
  | _ :: _, [] => false
  | a :: as, b :: bs =>
    if a.toNat < b.toNat then true
    else if b.toNat < a.toNat then false
    else charsLt as bs

/-- `a <= b` in SQLite's BINARY collation. -/
def strLe (a b : String) : Bool := !(charsLt b.data a.data)

/-- Python `s.replace("T", " ")` for the single-character pattern used in
`get_scan_pairs`: every `'T'` becomes a space. -/
def replaceTbySpace (s : String) : String :=
  ⟨s.data.map (fun c => if c = 'T' then ' ' else c)⟩

/-- Python truthiness of an optional string (`if date:`): `None` and the
empty string are falsy. -/
def truthyStr : Option String → Bool
  | none => false
  | some s => !(s == "")

/-- Python `c in s` for a single character (`" " in df`, `":" in df`). -/
def strContains (s : String) (c : Char) : Bool := s.data.any (fun a => a == c)

/-- One row of the `scans` table (`database.py` lines 33-43): autoincrement
`id`, `platform`, `product`, and `scan_date` stored by SQLite's
`CURRENT_TIMESTAMP` as a `'YYYY-MM-DD HH:MM:SS'` text value. -/
structure ScanRow where
  id : Nat
  platform : Int
  product : Int
  scan_date : String
deriving DecidableEq

/-- `DatabaseManager.add_scan` (lines 70-87): `INSERT INTO scans(platform,
product) VALUES (?,?)` followed by `commit`; `scan_date` defaults to the
server's current timestamp and the new row id is returned. -/
def add_scan (db : List ScanRow) (nextId : Nat) (nowTs : String)
    (platform product : Int) : List ScanRow × Nat :=
  (db ++ [{ id := nextId, platform := platform, product := product, scan_date := nowTs }],
   nextId)

/-- The WHERE clause built by `DatabaseManager.get_scan_pairs`
(lines 102-133), applied to one row. All filters are conjunctive.
`date` (when truthy) expands to
`scan_date BETWEEN '{d} 00:00:00' AND '{d} 23:59:59.999999'` with a
`'T'`-to-space normalisation, and then `date_from`/`date_to` are not
consulted at all; otherwise each bound is used when truthy, getting a
midnight / end-of-day time appended when it carries no time of its own. -/
def rowMatches (platform product : Option Int)
    (date_from date_to date : Option String) (r : ScanRow) : Bool :=
  (match platform with
   | none => true
   | some p => r.platform == p) &&
  (match product with
   | none => true
   | some q => r.product == q) &&
  (if truthyStr date then
    let nd := replaceTbySpace (date.getD "")
    strLe (nd ++ " 00:00:00") r.scan_date &&
      strLe r.scan_date (nd ++ " 23:59:59.999999")
   else
    (if truthyStr date_from then
      let df := replaceTbySpace (date_from.getD "")
      let lo := if strContains df ' ' && strContains df ':' then df else df ++ " 00:00:00"
      strLe lo r.scan_date
     else true) &&
    (if truthyStr date_to then
      let dt := replaceTbySpace (date_to.getD "")
      let hi := if strContains dt ' ' && strContains dt ':' then dt
                else dt ++ " 23:59:59.999999"
      strLe r.scan_date hi
     else true))

/-- Insert a row into a list sorted by `scan_date` descending. -/
def insertByDateDesc (r : ScanRow) : List ScanRow → List ScanRow
  | [] => [r]
  | x :: xs =>
    if strLe x.scan_date r.scan_date then r :: x :: xs
    else x :: insertByDateDesc r xs

/-- `ORDER BY scan_date DESC` of the query in `get_scan_pairs`
(lines 135-140), as an insertion sort (SQL promises no order among equal
keys). -/
def sortByDateDesc : List ScanRow → List ScanRow
  | [] => []
  | r :: rest => insertByDateDesc r (sortByDateDesc rest)

/-- `DatabaseManager.get_scan_pairs` (lines 89-159): the rows of the table
satisfying every supplied filter, ordered by `scan_date` descending. -/
def get_scan_pairs (db : List ScanRow) (platform product : Option Int)
    (date_from date_to date : Option String) : List ScanRow :=
  sortByDateDesc (db.filter (rowMatches platform product date_from date_to date))

/-- One step of the grouping loop in `api.py`'s `get_dict` (lines 28-35):
append `{product, scanId}` to the platform's bucket, creating the bucket
at the end on first sight of the platform. -/
def addPairToMap (m : List (Int × List (Int × Nat))) (plat : Int)
    (pr : Int × Nat) : List (Int × List (Int × Nat)) :=
  if m.any (fun e => e.1 == plat) then
    m.map (fun e => if e.1 == plat then (e.1, e.2 ++ [pr]) else e)
  else m ++ [(plat, [pr])]

/-- `api.py`'s `get_dict` (lines 16-36): query `get_scan_pairs` with the
given filters and group the result by platform into
`{platform: [{product, scanId}]}` (modelled as an association list in
first-seen platform order; a pair is `(product, scanId)`). -/
def get_dict (db : List ScanRow) (platform product : Option Int)
    (date_from date_to date : Option String) : List (Int × List (Int × Nat)) :=
  (get_scan_pairs db platform product date_from date_to date).foldl
    (fun m item => addPairToMap m item.platform (item.product, item.id)) []

/-- `PairDTO` from `models.py`: the ingest request body
`{platform:int, product?:int, timestamp?:string}`. -/
structure PairDTO where
  platform : Int
  product : Option Int
  timestamp : Option String
deriving DecidableEq

/-- Observable effects of one `post_data` call, in program order: the
committed insert performed by `add_scan`, and the two broadcast shapes
(`new_pair` from `WSNewPair`, `change_platform` from `WSChangePlatform`). -/
inductive ApiEvent where
  | dbInsert (platform product : Int) (scanId : Nat)
  | broadcastNewPair (platform product : Int) (timestamp : String)
  | broadcastChangePlatform (platform : Int) (pairs : List (Int × List (Int × Nat)))
deriving DecidableEq

/-- Successful outcome of `post_data`: the database afterwards, the effects
in the order they fired, and the JSON `message` returned. -/
structure ApiSuccess where
  db : List ScanRow
  events : List ApiEvent
  message : String
deriving DecidableEq

/-- `if not pair.timestamp: pair.timestamp = datetime.now().isoformat()`
(`api.py` lines 41-42): `None` and the empty string are replaced by the
current time. -/
def resolvedTimestamp (nowIso : String) (pair : PairDTO) : String :=
  match pair.timestamp with
  | none => nowIso
  | some s => if s == "" then nowIso else s

/-- `post_data` (`api.py` lines 38-75). `nowIso` is
`datetime.now().isoformat()`, `nowTs` the timestamp SQLite stores for the
insert, `nextId` the next autoincrement id, and `insertFails` abstracts
whether `add_scan` raises. With a `product` the handler inserts, then
broadcasts `new_pair`; an exception is caught and re-raised as
`HTTPException(500)` with no broadcast. Without a `product` it broadcasts
`change_platform` carrying `get_dict(platform=pair.platform)` — called
with no date argument. -/
def post_data (db : List ScanRow) (nextId : Nat) (nowIso nowTs : String)
    (insertFails : Bool) (pair : PairDTO) : Except String ApiSuccess :=
  let ts := resolvedTimestamp nowIso pair
  match pair.product with
  | some prod =>
    if insertFails then .error "HTTP 500"
    else
      let inserted := add_scan db nextId nowTs pair.platform prod
      .ok { db := inserted.1
            events := [.dbInsert pair.platform prod inserted.2,
                       .broadcastNewPair pair.platform prod ts]
            message := "Сканирование добавлено в базу данных" }
  | none =>
    .ok { db := db
          events := [.broadcastChangePlatform pair.platform
                       (get_dict db (some pair.platform) none none none none)]
          message := "Платформа изменена, отправлены пары за сегодня" }

/-- The direct `websocket.send_text` messages among a list of events, with
their target connections, in order. -/
def sentMessages (evs : List WSEvent) : List (Nat × WSHeartbeatAck) :=
  evs.filterMap (fun e =>
    match e with
    | .sendText c a => some (c, a)
    | .scheduleStatusBroadcast _ => none)

/-! ## Helper lemmas -/

theorem filter_length_pos_iff {α : Type} (p : α → Bool) (l : List α) :
    0 < (l.filter p).length ↔ ∃ a ∈ l, p a = true := by
  induction l with
  | nil => simp
  | cons a t ih =>
    by_cases h : p a = true
    · simp [List.filter_cons, h]
    · simp only [List.filter_cons, h, if_neg, Bool.false_eq_true, ite_false, ih,
        List.mem_cons]
      constructor
      · rintro ⟨x, hx, hpx⟩
        exact ⟨x, Or.inr hx, hpx⟩
      · rintro ⟨x, hx | hx, hpx⟩
        · exact absurd (hx ▸ hpx) h
        · exact ⟨x, hx, hpx⟩

theorem filter_beq_singleton {l : List Nat} {k : Nat} (hnd : l.Nodup)
    (hmem : k ∈ l) : l.filter (fun c => c == k) = [k] := by
  induction l with
  | nil => cases hmem
  | cons a t ih =>
    rcases List.nodup_cons.mp hnd with ⟨ha, ht⟩
    by_cases hak : a = k
    · subst hak
      have hnil : t.filter (fun c => c == a) = [] := by
        rw [List.filter_eq_nil_iff]
        intro x hx
        simp only [beq_iff_eq]
        intro hxa
        exact ha (hxa ▸ hx)
      simp [List.filter_cons, hnil]
    · have hk : k ∈ t := by
        rcases List.mem_cons.mp hmem with h | h
        · exact absurd h.symm hak
        · exact h
      simpa [List.filter_cons, hak] using ih ht hk

theorem filter_bne_eq_erase {l : List Nat} {k : Nat} (hnd : l.Nodup) :
    l.filter (fun c => !(c == k)) = l.erase k := by
  rw [List.Nodup.erase_eq_filter hnd]
  apply List.filter_congr
  intro x _
  simp [bne]

theorem mem_insertByDateDesc {a r : ScanRow} {l : List ScanRow} :
    a ∈ insertByDateDesc r l ↔ a = r ∨ a ∈ l := by
  induction l with
  | nil => simp [insertByDateDesc]
  | cons x xs ih =>
    cases hc : strLe x.scan_date r.scan_date with
    | true =>
      simp [insertByDateDesc, hc, List.mem_cons]
    | false =>
      simp [insertByDateDesc, hc, List.mem_cons, ih]
      tauto

theorem mem_sortByDateDesc {a : ScanRow} {l : List ScanRow} :
    a ∈ sortByDateDesc l ↔ a ∈ l := by
  induction l with
  | nil => simp [sortByDateDesc]
  | cons x xs ih =>
    simp [sortByDateDesc, mem_insertByDateDesc, ih]

theorem any_beq_false_iff {l : List (Nat × ScannerSession)} {ws : Nat} :
    l.any (fun p => p.1 == ws) = false ↔ ∀ p ∈ l, p.1 ≠ ws := by
  constructor
  · intro h p hp heq
    have htrue : l.any (fun p => p.1 == ws) = true :=
      List.any_eq_true.mpr ⟨p, hp, by simp [heq]⟩
    rw [h] at htrue
    cases htrue
  · intro h
    cases hany : l.any (fun p => p.1 == ws) with
    | false => rfl
    | true =>
      rcases List.any_eq_true.mp hany with ⟨p, hp, hq⟩
      exact absurd (by simpa using hq) (h p hp)

theorem updateHB_fst (ws now : Nat) (p : Nat × ScannerSession) :
    (updateHB ws now p).1 = p.1 := by
  unfold updateHB
  by_cases h : (p.1 == ws) = true
  · rw [if_pos h]
  · rw [if_neg h]

theorem updateHB_of_ne {ws now : Nat} {p : Nat × ScannerSession}
    (h : p.1 ≠ ws) : updateHB ws now p = p := by
  unfold updateHB
  rw [if_neg]
  simp [h]

theorem updateHB_of_eq {ws now : Nat} {p : Nat × ScannerSession}
    (h : (p.1 == ws) = true) :
    updateHB ws now p = (p.1, { p.2 with last_heartbeat := now }) := by
  unfold updateHB
  rw [if_pos h]

theorem map_update_not_mem {l : List (Nat × ScannerSession)} {ws now : Nat}
    (h : ∀ p ∈ l, p.1 ≠ ws) :
    l.map (updateHB ws now) = l := by
  induction l with
  | nil => rfl
  | cons a t ih =>
    rw [List.map_cons, updateHB_of_ne (h a (List.mem_cons_self a t)),
      ih (fun p hp => h p (List.mem_cons_of_mem a hp))]

theorem map_fst_update {l : List (Nat × ScannerSession)} {ws now : Nat} :
    (l.map (updateHB ws now)).map Prod.fst = l.map Prod.fst := by
  rw [List.map_map]
  exact List.map_congr_left (fun p _ => updateHB_fst ws now p)

theorem find_map_update {l : List (Nat × ScannerSession)} {ws now : Nat} :
    (l.map (updateHB ws now)).find? (fun p => p.1 == ws)
      = (l.find? (fun p => p.1 == ws)).map (updateHB ws now) := by
  induction l with
  | nil => rfl
  | cons a t ih =>
    by_cases hb : (a.1 == ws) = true
    · have hb2 : ((updateHB ws now a).1 == ws) = true := by
        rw [updateHB_fst]
        exact hb
      rw [List.map_cons, List.find?_cons_of_pos (p := fun q : Nat × ScannerSession => q.1 == ws) _ hb2,
        List.find?_cons_of_pos (p := fun q : Nat × ScannerSession => q.1 == ws) _ hb, Option.map_some']
    · have hb2 : ¬ (((updateHB ws now a).1 == ws) = true) := by
        rw [updateHB_fst]
        exact hb
      rw [List.map_cons, List.find?_cons_of_neg (p := fun q : Nat × ScannerSession => q.1 == ws) _ hb2,
        List.find?_cons_of_neg (p := fun q : Nat × ScannerSession => q.1 == ws) _ hb, ih]

theorem handle_message_update_eq {now ws : Nat} {msg : WSHeartbeatIn}
    {st : ManagerState} (h1 : msg.type = "heartbeat")
    (hany : st.scanner_connections.any (fun p => p.1 == ws) = true) :
    handle_message now ws (some msg) st
      = (update_scanner_heartbeat now ws st, [.sendText ws ⟨now⟩]) := by
  simp only [handle_message]
  rw [if_pos h1, if_pos hany]

theorem handle_message_register_eq {now ws : Nat} {msg : WSHeartbeatIn}
    {st : ManagerState} (h1 : msg.type = "heartbeat")
    (habs : st.scanner_connections.any (fun p => p.1 == ws) = false) :
    handle_message now ws (some msg) st
      = (register_scanner now ws msg st,
         [.scheduleStatusBroadcast
            (broadcast_scanner_status now (register_scanner now ws msg st)),
          .sendText ws ⟨now⟩]) := by
  simp only [handle_message]
  rw [if_pos h1, if_neg (by rw [habs]; exact Bool.false_ne_true)]

theorem update_eq_of_any {now ws : Nat} {st : ManagerState}
    (hany : st.scanner_connections.any (fun p => p.1 == ws) = true) :
    update_scanner_heartbeat now ws st
      = { st with scanner_connections := st.scanner_connections.map (updateHB ws now) } := by
  unfold update_scanner_heartbeat
  rw [if_pos hany]

/-! ## Claim theorems -/

/-- C10: in every `scanner_status` payload the system builds,
`has_active_scanners` is true exactly when some entry of the `scanners`
list in that same payload has `is_active = true` (hence false for an
empty list). -/
theorem scanner_status_has_active_iff (now : Nat) (st : ManagerState) :
    (broadcast_scanner_status now st).has_active_scanners = true ↔
      ∃ s ∈ (broadcast_scanner_status now st).scanners, s.is_active = true := by
  simp only [broadcast_scanner_status, decide_eq_true_eq]
  exact filter_length_pos_iff (fun s : WSScannerInfo => s.is_active) _

/-- C1 (code bug): `get_connected_scanners_info` computes `is_active` with
`timedelta.seconds`, the seconds component modulo one day, not the total
elapsed time. A session whose last heartbeat is exactly 24 hours old
(86400000000 µs) is therefore reported `is_active = true`, although its
age is far beyond the 60-second liveness window the spec fixes. -/
theorem scanner_reported_active_after_one_day :
    get_connected_scanners_info 86400000000
        { active_connections := [1]
          scanner_connections := [(1, { client := "scanner1", last_heartbeat := 0, connected_at := 0 })] }
      = [{ client := "scanner1", connected_at := 0, last_heartbeat := 0, is_active := true }]
    ∧ ¬ (86400000000 - 0 < 60 * 1000000) := by
  constructor
  · rfl
  · decide

/-- C3 (code bug): for an ingest body with a platform and no product,
`post_data` broadcasts `change_platform` with
`get_dict(platform=...)` called with NO date filter, although its own
success message says the pairs are for today. With the current day
2024-01-15, a record scanned on 2024-01-14 is included in the broadcast
pairs, yet the single-day filter for 2024-01-15 (the filter `get_dict`
would apply for today) rejects that record. -/
theorem change_platform_broadcast_ignores_date :
    post_data [⟨1, 5, 7, "2024-01-14 10:00:00"⟩] 2 "2024-01-15T12:00:00"
        "2024-01-15 12:00:00" false ⟨5, none, none⟩
      = .ok ⟨[⟨1, 5, 7, "2024-01-14 10:00:00"⟩],
             [.broadcastChangePlatform 5 [(5, [(7, 1)])]],
             "Платформа изменена, отправлены пары за сегодня"⟩
    ∧ rowMatches none none none none (some "2024-01-15")
        ⟨1, 5, 7, "2024-01-14 10:00:00"⟩ = false := by
  constructor
  · rfl
  · decide

/-- C2: when exactly one registered connection `k` fails its send,
`broadcast` still attempts the send on every connection of the original
list (it never mutates the list it iterates), delivers to all the
others, does not raise, and afterwards the state is exactly
`disconnect k` of the original state — the same removal path as an
explicit disconnect — so `k` alone has left the registry. -/
theorem broadcast_single_failure (st : ManagerState) (k : Nat)
    (hmem : k ∈ st.active_connections) (hnd : st.active_connections.Nodup) :
    (broadcast (fun c => c == k) st).attempted = st.active_connections ∧
    (broadcast (fun c => c == k) st).delivered = st.active_connections.erase k ∧
    (broadcast (fun c => c == k) st).state = disconnect k st ∧
    k ∉ (broadcast (fun c => c == k) st).state.active_connections := by
  have hne : st.active_connections.isEmpty = false := by
    cases hl : st.active_connections with
    | nil => rw [hl] at hmem; cases hmem
    | cons a t => simp
  have hfk : st.active_connections.filter (fun c => c == k) = [k] :=
    filter_beq_singleton hnd hmem
  refine ⟨?_, ?_, ?_, ?_⟩
  · simp [broadcast, hne]
  · simp [broadcast, hne, filter_bne_eq_erase hnd]
  · simp [broadcast, hne, hfk]
  · simp only [broadcast, hne, Bool.false_eq_true, if_false, hfk, List.foldl_cons,
      List.foldl_nil, disconnect]
    intro hk
    exact ((List.Nodup.mem_erase_iff hnd).mp hk).1 rfl

/-- Witness for C2 at a concrete three-connection registry where
connection 2 fails. -/
theorem broadcast_single_failure_witness :
    2 ∈ ([1, 2, 3] : List Nat) ∧ ([1, 2, 3] : List Nat).Nodup ∧
    ((broadcast (fun c => c == 2) ⟨[1, 2, 3], []⟩).attempted = [1, 2, 3] ∧
     (broadcast (fun c => c == 2) ⟨[1, 2, 3], []⟩).delivered = [1, 3] ∧
     (broadcast (fun c => c == 2) ⟨[1, 2, 3], []⟩).state = disconnect 2 ⟨[1, 2, 3], []⟩ ∧
     2 ∉ (broadcast (fun c => c == 2) ⟨[1, 2, 3], []⟩).state.active_connections) :=
  ⟨by decide, by decide, broadcast_single_failure ⟨[1, 2, 3], []⟩ 2 (by decide) (by decide)⟩

/-- C8: `disconnect` is idempotent. When the connection is registered
nowhere it is a no-op that changes neither the connection list nor the
scanner-session map; a second call after a first one changes nothing
more; and after one call the connection is gone from both structures. -/
theorem disconnect_idempotent (st : ManagerState) (ws : Nat)
    (hnd : st.active_connections.Nodup) :
    (ws ∉ st.active_connections →
       (∀ p ∈ st.scanner_connections, p.1 ≠ ws) →
       disconnect ws st = st) ∧
    disconnect ws (disconnect ws st) = disconnect ws st ∧
    ws ∉ (disconnect ws st).active_connections ∧
    ∀ p ∈ (disconnect ws st).scanner_connections, p.1 ≠ ws := by
  refine ⟨?_, ?_, ?_, ?_⟩
  · intro ha hs
    cases st with
    | mk a s =>
      simp only [disconnect]
      congr 1
      · exact List.erase_of_not_mem ha
      · apply List.filter_eq_self.mpr
        intro p hp
        simpa using hs p hp
  · cases st with
    | mk a s =>
      simp only [disconnect]
      congr 1
      · apply List.erase_of_not_mem
        intro hk
        exact ((List.Nodup.mem_erase_iff hnd).mp hk).1 rfl
      · apply List.filter_eq_self.mpr
        intro p hp
        exact (List.mem_filter.mp hp).2
  · intro hk
    exact ((List.Nodup.mem_erase_iff hnd).mp hk).1 rfl
  · intro p hp heq
    have := (List.mem_filter.mp hp).2
    simp [heq] at this

/-- Witness for C8 at a concrete one-connection, one-session registry. -/
theorem disconnect_idempotent_witness :
    ([1] : List Nat).Nodup ∧
    ((1 ∉ ([1] : List Nat) →
        (∀ p ∈ [((1 : Nat), ScannerSession.mk "a" 0 0)], p.1 ≠ 1) →
        disconnect 1 ⟨[1], [(1, ⟨"a", 0, 0⟩)]⟩ = ⟨[1], [(1, ⟨"a", 0, 0⟩)]⟩) ∧
     disconnect 1 (disconnect 1 ⟨[1], [(1, ⟨"a", 0, 0⟩)]⟩)
        = disconnect 1 ⟨[1], [(1, ⟨"a", 0, 0⟩)]⟩ ∧
     1 ∉ (disconnect 1 ⟨[1], [(1, ⟨"a", 0, 0⟩)]⟩).active_connections ∧
     ∀ p ∈ (disconnect 1 ⟨[1], [(1, ⟨"a", 0, 0⟩)]⟩).scanner_connections, p.1 ≠ 1) :=
  ⟨by decide, disconnect_idempotent ⟨[1], [(1, ⟨"a", 0, 0⟩)]⟩ 1 (by decide)⟩

/-- C7: the only direct `send_text` a heartbeat triggers is a single
`heartbeat_ack` carrying the current time, addressed to the websocket
the heartbeat arrived on; the ack is never handed to `broadcast`, whose
scheduled payload is a `scanner_status` message. -/
theorem heartbeat_ack_only_to_sender (now ws : Nat) (msg : WSHeartbeatIn)
    (st : ManagerState) (hmsg : msg.type = "heartbeat") :
    sentMessages (handle_message now ws (some msg) st).2 = [(ws, ⟨now⟩)] := by
  cases h : st.scanner_connections.any (fun p => p.1 == ws) with
  | true => simp [handle_message, hmsg, h, sentMessages]
  | false => simp [handle_message, hmsg, h, sentMessages]

/-- Witness for C7 at a concrete heartbeat from connection 1. -/
theorem heartbeat_ack_only_to_sender_witness :
    (WSHeartbeatIn.mk "heartbeat" none (some "station-A")).type = "heartbeat" ∧
    sentMessages
        (handle_message 5 1 (some ⟨"heartbeat", none, some "station-A"⟩) ⟨[1], []⟩).2
      = [(1, ⟨5⟩)] :=
  ⟨rfl, heartbeat_ack_only_to_sender 5 1 ⟨"heartbeat", none, some "station-A"⟩ ⟨[1], []⟩ rfl⟩

/-- C6: a heartbeat from an untracked connection appends exactly one new
session, with `last_heartbeat` and `connected_at` both the current time;
the session keys stay duplicate-free, and a second heartbeat from the
same connection only rewrites that single session's `last_heartbeat`
instead of adding another entry. -/
theorem heartbeat_creates_single_session
    (now now2 ws : Nat) (msg msg2 : WSHeartbeatIn) (st : ManagerState)
    (habs : st.scanner_connections.any (fun p => p.1 == ws) = false)
    (hnd : (st.scanner_connections.map Prod.fst).Nodup)
    (h1 : msg.type = "heartbeat") (h2 : msg2.type = "heartbeat") :
    (handle_message now ws (some msg) st).1.scanner_connections
        = st.scanner_connections ++ [(ws, ⟨msg.client.getD "unknown", now, now⟩)] ∧
    ((handle_message now ws (some msg) st).1.scanner_connections.map Prod.fst).Nodup ∧
    (handle_message now2 ws (some msg2)
          (handle_message now ws (some msg) st).1).1.scanner_connections
        = st.scanner_connections ++ [(ws, ⟨msg.client.getD "unknown", now2, now⟩)] := by
  have hall : ∀ p ∈ st.scanner_connections, p.1 ≠ ws := any_beq_false_iff.mp habs
  have hst1 : (handle_message now ws (some msg) st).1.scanner_connections
      = st.scanner_connections ++ [(ws, ⟨msg.client.getD "unknown", now, now⟩)] := by
    rw [handle_message_register_eq h1 habs]
    show (register_scanner now ws msg st).scanner_connections = _
    simp only [register_scanner, dictSet]
    rw [if_neg (by rw [habs]; exact Bool.false_ne_true)]
  have hws : ws ∉ st.scanner_connections.map Prod.fst := by
    intro hmem
    rcases List.mem_map.mp hmem with ⟨p, hp, hfst⟩
    exact hall p hp hfst
  have hany1 : ((handle_message now ws (some msg) st).1.scanner_connections.any
      (fun p => p.1 == ws)) = true := by
    rw [hst1]
    simp
  refine ⟨hst1, ?_, ?_⟩
  · rw [hst1, List.map_append]
    exact hnd.append (List.nodup_singleton ws) (List.disjoint_singleton.mpr hws)
  · rw [handle_message_update_eq h2 hany1]
    show (update_scanner_heartbeat now2 ws (handle_message now ws (some msg) st).1).scanner_connections = _
    rw [update_eq_of_any hany1]
    show (handle_message now ws (some msg) st).1.scanner_connections.map (updateHB ws now2) = _
    rw [hst1, List.map_append, map_update_not_mem hall, List.map_cons, List.map_nil,
      updateHB_of_eq (by simp)]

/-- Witness for C6: connection 1 heartbeats twice at times 10 and 20. -/
theorem heartbeat_creates_single_session_witness :
    ((⟨[1], []⟩ : ManagerState).scanner_connections.any (fun p => p.1 == 1)) = false ∧
    ((handle_message 10 1 (some ⟨"heartbeat", none, some "station-A"⟩)
          ⟨[1], []⟩).1.scanner_connections
        = [(1, ⟨"station-A", 10, 10⟩)] ∧
     ((handle_message 10 1 (some ⟨"heartbeat", none, some "station-A"⟩)
          ⟨[1], []⟩).1.scanner_connections.map Prod.fst).Nodup ∧
     (handle_message 20 1 (some ⟨"heartbeat", none, none⟩)
          (handle_message 10 1 (some ⟨"heartbeat", none, some "station-A"⟩)
             ⟨[1], []⟩).1).1.scanner_connections
        = [(1, ⟨"station-A", 20, 10⟩)]) :=
  ⟨by decide,
   heartbeat_creates_single_session 10 20 1 ⟨"heartbeat", none, some "station-A"⟩
     ⟨"heartbeat", none, none⟩ ⟨[1], []⟩ (by decide) (by decide) rfl rfl⟩

/-- C9: a heartbeat for an already-registered session only rewrites
`last_heartbeat` to the server clock: the stored client label and
`connected_at` survive unchanged, the session keys are untouched, every
other session is left in place, and the result does not depend on the
`client`/`timestamp` fields of the later frame. -/
theorem heartbeat_updates_only_last_heartbeat
    (now ws : Nat) (msg : WSHeartbeatIn) (st : ManagerState) (s : ScannerSession)
    (hmem : lookupSession st ws = some s)
    (h1 : msg.type = "heartbeat") :
    lookupSession (handle_message now ws (some msg) st).1 ws
        = some { s with last_heartbeat := now } ∧
    (handle_message now ws (some msg) st).1.scanner_connections.map Prod.fst
        = st.scanner_connections.map Prod.fst ∧
    (∀ p ∈ st.scanner_connections, p.1 ≠ ws →
        p ∈ (handle_message now ws (some msg) st).1.scanner_connections) ∧
    ∀ msg2 : WSHeartbeatIn, msg2.type = "heartbeat" →
        handle_message now ws (some msg2) st = handle_message now ws (some msg) st := by
  have hany : st.scanner_connections.any (fun p => p.1 == ws) = true := by
    unfold lookupSession at hmem
    cases hf : st.scanner_connections.find? (fun p => p.1 == ws) with
    | none => rw [hf] at hmem; cases hmem
    | some p =>
      have hpb := List.find?_some hf
      have hpm := List.mem_of_find?_eq_some hf
      exact List.any_eq_true.mpr ⟨p, hpm, hpb⟩
  have hsc : (handle_message now ws (some msg) st).1.scanner_connections
      = st.scanner_connections.map (updateHB ws now) := by
    rw [handle_message_update_eq h1 hany, update_eq_of_any hany]
  refine ⟨?_, ?_, ?_, ?_⟩
  · cases hf : st.scanner_connections.find? (fun p => p.1 == ws) with
    | none =>
      unfold lookupSession at hmem
      rw [hf] at hmem
      cases hmem
    | some p =>
      unfold lookupSession at hmem
      rw [hf] at hmem
      have hps : p.2 = s := by simpa using hmem
      have hpb := List.find?_some hf
      unfold lookupSession
      rw [hsc, find_map_update, hf, Option.map_some', Option.map_some',
        updateHB_of_eq hpb, hps]
  · rw [hsc]
    exact map_fst_update
  · intro p hp hpne
    rw [hsc]
    exact List.mem_map.mpr ⟨p, hp, updateHB_of_ne hpne⟩
  · intro msg2 hm2
    rw [handle_message_update_eq hm2 hany, handle_message_update_eq h1 hany]

/-- Witness for C9: connection 1 already tracked as
`("station-A", last_heartbeat 10, connected_at 10)` heartbeats again at
time 20. -/
theorem heartbeat_updates_only_last_heartbeat_witness :
    lookupSession ⟨[1], [(1, ⟨"station-A", 10, 10⟩)]⟩ 1 = some ⟨"station-A", 10, 10⟩ ∧
    (WSHeartbeatIn.mk "heartbeat" (some "ignored") (some "other-label")).type = "heartbeat" ∧
    (lookupSession
        (handle_message 20 1 (some ⟨"heartbeat", some "ignored", some "other-label"⟩)
           ⟨[1], [(1, ⟨"station-A", 10, 10⟩)]⟩).1 1
        = some ⟨"station-A", 20, 10⟩ ∧
     (handle_message 20 1 (some ⟨"heartbeat", some "ignored", some "other-label"⟩)
           ⟨[1], [(1, ⟨"station-A", 10, 10⟩)]⟩).1.scanner_connections.map Prod.fst
        = [1] ∧
     (∀ p ∈ [((1 : Nat), ScannerSession.mk "station-A" 10 10)], p.1 ≠ 1 →
        p ∈ (handle_message 20 1 (some ⟨"heartbeat", some "ignored", some "other-label"⟩)
              ⟨[1], [(1, ⟨"station-A", 10, 10⟩)]⟩).1.scanner_connections) ∧
     ∀ msg2 : WSHeartbeatIn, msg2.type = "heartbeat" →
        handle_message 20 1 (some msg2) ⟨[1], [(1, ⟨"station-A", 10, 10⟩)]⟩
          = handle_message 20 1 (some ⟨"heartbeat", some "ignored", some "other-label"⟩)
              ⟨[1], [(1, ⟨"station-A", 10, 10⟩)]⟩) :=
  ⟨rfl, rfl,
   heartbeat_updates_only_last_heartbeat 20 1 ⟨"heartbeat", some "ignored", some "other-label"⟩
     ⟨[1], [(1, ⟨"station-A", 10, 10⟩)]⟩ ⟨"station-A", 10, 10⟩ rfl rfl⟩

/-- C4: with a truthy single-day `date` filter, `date_from`/`date_to` are
ignored entirely, and a stored row is returned exactly when its
`scan_date` lies (inclusively) between `'{d} 00:00:00'` and
`'{d} 23:59:59.999999'`, where `d` is the filter value with any `'T'`
joiner already normalised to the single-space stored form. -/
theorem get_scan_pairs_single_day (db : List ScanRow) (d : String)
    (pf pr : Option Int) (dfrom dto : Option String) (r : ScanRow)
    (hd : (d == "") = false) :
    get_scan_pairs db pf pr dfrom dto (some d)
        = get_scan_pairs db pf pr none none (some d) ∧
    (r ∈ get_scan_pairs db none none none none (some d) ↔
      r ∈ db ∧
      strLe (replaceTbySpace d ++ " 00:00:00") r.scan_date = true ∧
      strLe r.scan_date (replaceTbySpace d ++ " 23:59:59.999999") = true) := by
  have htr : truthyStr (some d) = true := by
    simp [truthyStr, hd]
  constructor
  · unfold get_scan_pairs
    congr 1
    apply List.filter_congr
    intro a _
    simp [rowMatches, htr]
  · unfold get_scan_pairs
    rw [mem_sortByDateDesc, List.mem_filter]
    simp [rowMatches, htr]

/-- Witness for C4: the spec's example record `2024-01-15 10:00:00`
against the filter `date = "2024-01-15"`. -/
theorem get_scan_pairs_single_day_witness :
    ("2024-01-15" == "") = false ∧
    (get_scan_pairs [⟨1, 5, 7, "2024-01-15 10:00:00"⟩] (some 5) (some 7)
          (some "2000-01-01") (some "2000-01-02") (some "2024-01-15")
        = get_scan_pairs [⟨1, 5, 7, "2024-01-15 10:00:00"⟩] (some 5) (some 7)
            none none (some "2024-01-15") ∧
     ((⟨1, 5, 7, "2024-01-15 10:00:00"⟩ : ScanRow)
          ∈ get_scan_pairs [⟨1, 5, 7, "2024-01-15 10:00:00"⟩] none none none none
              (some "2024-01-15") ↔
       (⟨1, 5, 7, "2024-01-15 10:00:00"⟩ : ScanRow) ∈ [⟨1, 5, 7, "2024-01-15 10:00:00"⟩] ∧
       strLe (replaceTbySpace "2024-01-15" ++ " 00:00:00") "2024-01-15 10:00:00" = true ∧
       strLe "2024-01-15 10:00:00" (replaceTbySpace "2024-01-15" ++ " 23:59:59.999999")
          = true)) :=
  ⟨by decide,
   get_scan_pairs_single_day [⟨1, 5, 7, "2024-01-15 10:00:00"⟩] "2024-01-15"
     (some 5) (some 7) (some "2000-01-01") (some "2000-01-02")
     ⟨1, 5, 7, "2024-01-15 10:00:00"⟩ (by decide)⟩

/-- C5: for an ingest body carrying both platform and product, a failing
insert surfaces as a structured HTTP 500 error with no events at all (in
particular no `new_pair` broadcast), while a successful call commits the
row through `add_scan` and only then fires the `new_pair` broadcast: the
returned state's event list is exactly the insert followed by the
broadcast, and the returned database already holds the inserted row. -/
theorem post_data_commit_before_broadcast (db : List ScanRow) (nextId : Nat)
    (nowIso nowTs : String) (pair : PairDTO) (prod : Int)
    (hp : pair.product = some prod) :
    post_data db nextId nowIso nowTs true pair = .error "HTTP 500" ∧
    post_data db nextId nowIso nowTs false pair =
      .ok ⟨(add_scan db nextId nowTs pair.platform prod).1,
           [.dbInsert pair.platform prod nextId,
            .broadcastNewPair pair.platform prod (resolvedTimestamp nowIso pair)],
           "Сканирование добавлено в базу данных"⟩ := by
  constructor
  · simp [post_data, hp]
  · simp [post_data, hp, add_scan]

/-- Witness for C5: ingest of `{platform: 5, product: 7}` at time
`2024-01-15 12:00:00`, with and without a failing insert. -/
theorem post_data_commit_before_broadcast_witness :
    (PairDTO.mk 5 (some 7) none).product = some 7 ∧
    (post_data [] 1 "2024-01-15T12:00:00" "2024-01-15 12:00:00" true ⟨5, some 7, none⟩
        = .error "HTTP 500" ∧
     post_data [] 1 "2024-01-15T12:00:00" "2024-01-15 12:00:00" false ⟨5, some 7, none⟩
        = .ok ⟨(add_scan [] 1 "2024-01-15 12:00:00" 5 7).1,
               [.dbInsert 5 7 1,
                .broadcastNewPair 5 7 (resolvedTimestamp "2024-01-15T12:00:00" ⟨5, some 7, none⟩)],
               "Сканирование добавлено в базу данных"⟩) :=
  ⟨rfl,
   post_data_commit_before_broadcast [] 1 "2024-01-15T12:00:00" "2024-01-15 12:00:00"
     ⟨5, some 7, none⟩ 7 rfl⟩

end ScannerBackend
